import Mathlib

/-!
Verification of the Port Probe Service extracted from `src/main.py` of the
fletsocket repository.  The Python functions are shallowly embedded as Lean
functions: JSON persistence becomes an explicit `Store` state, the
`functools.lru_cache(maxsize=1)` decorators become explicit one-slot caches,
and the standard-library helpers the code calls (`int`, `ipaddress`, the
socket connect) are modelled faithfully from their documented behaviour,
restricted to ASCII input.
-/

namespace FletSocket

/-- A history entry as written to `scan_history.json` by `save_history`
(`src/main.py` lines 30-35): string fields `ip`, `port`, `status`, `date`. -/
structure Entry where
  ip : String
  port : String
  status : String
  date : String
deriving DecidableEq, Repr

/-- The dedup predicate of `save_history` line 36:
`item['ip'] == ip and item['port'] == port`. -/
def keyMatch (ip port : String) (e : Entry) : Bool :=
  e.ip == ip && e.port == port

/-- Python list slicing `l[-n:]`: the last `n` elements (all of `l` when it is
shorter than `n`). -/
def lastSlice (n : Nat) (l : List Entry) : List Entry :=
  l.drop (l.length - n)

/-- The pure core of `save_history` (`src/main.py` lines 28-40): drop every
entry whose `(ip, port)` matches the new one, append the new entry, keep the
last 30.  The `date` string stands for `datetime.now().strftime(...)` computed
at call time. -/
def save_history_list (history : List Entry) (ip port status date : String) :
    List Entry :=
  let new_entry : Entry := ⟨ip, port, status, date⟩
  let filtered := history.filter (fun item => !(keyMatch ip port item))
  lastSlice 30 (filtered ++ [new_entry])

theorem length_filter_keyMatch_lt (ip port : String) (l : List Entry)
    (h : ∃ e ∈ l, keyMatch ip port e = true) :
    (l.filter (fun e => !(keyMatch ip port e))).length < l.length := by
  rw [List.length_filter_lt_length_iff_exists]
  obtain ⟨e, he, hk⟩ := h
  exact ⟨e, he, by simp [hk]⟩

theorem filter_keyMatch_filter_not (ip port : String) (l : List Entry) :
    (l.filter (fun e => !(keyMatch ip port e))).filter (keyMatch ip port)
      = [] := by
  rw [List.filter_eq_nil_iff]
  intro a ha
  have h := List.of_mem_filter ha
  simp only [Bool.not_eq_true'] at h
  simp [h]

/-- Claim C1: saving a history entry for a pair `(ip, port)` already present in
the (invariant-respecting, hence at most 30 element) history removes the prior
entries for that pair, appends the new entry at the end, preserves the relative
order of the untouched entries (the result is exactly the untouched entries in
order followed by the new entry), and the resulting sequence contains exactly
one entry for that pair. -/
theorem save_history_upsert (history : List Entry) (ip port status date : String)
    (hlen : history.length ≤ 30)
    (hmem : ∃ e ∈ history, keyMatch ip port e = true) :
    save_history_list history ip port status date
        = history.filter (fun e => !(keyMatch ip port e))
            ++ [⟨ip, port, status, date⟩]
      ∧ (save_history_list history ip port status date).filter (keyMatch ip port)
        = [⟨ip, port, status, date⟩] := by
  have hflt := length_filter_keyMatch_lt ip port history hmem
  have heq : save_history_list history ip port status date
      = history.filter (fun e => !(keyMatch ip port e))
          ++ [⟨ip, port, status, date⟩] := by
    simp only [save_history_list, lastSlice]
    have hz : (history.filter (fun e => !(keyMatch ip port e))
        ++ [(⟨ip, port, status, date⟩ : Entry)]).length - 30 = 0 := by
      simp only [List.length_append, List.length_singleton]
      omega
    rw [hz, List.drop_zero]
  refine ⟨heq, ?_⟩
  rw [heq, List.filter_append, filter_keyMatch_filter_not]
  simp [keyMatch]

/-- Witness for C1 at a concrete one-entry history containing the key. -/
theorem save_history_upsert_witness :
    save_history_list [⟨"8.8.8.8", "53", "ouvert", "d1"⟩] "8.8.8.8" "53" "fermé" "d2"
        = ([⟨"8.8.8.8", "53", "ouvert", "d1"⟩] : List Entry).filter
            (fun e => !(keyMatch "8.8.8.8" "53" e)) ++ [⟨"8.8.8.8", "53", "fermé", "d2"⟩]
      ∧ (save_history_list [⟨"8.8.8.8", "53", "ouvert", "d1"⟩] "8.8.8.8" "53" "fermé" "d2").filter
          (keyMatch "8.8.8.8" "53")
        = [⟨"8.8.8.8", "53", "fermé", "d2"⟩] :=
  save_history_upsert [⟨"8.8.8.8", "53", "ouvert", "d1"⟩] "8.8.8.8" "53" "fermé" "d2"
    (by decide) (by decide)

/-- Claim C2: after `save_history` the stored sequence holds at most 30
entries, and saving a 31st distinct-key entry into a 30-entry sequence yields
the 30-entry sequence missing exactly the oldest (head) entry, the new entry
appended last: eviction is FIFO by position, independent of the date fields. -/
theorem save_history_capacity (history : List Entry) (ip port status date : String) :
    (save_history_list history ip port status date).length ≤ 30
    ∧ (history.length = 30 →
        (∀ e ∈ history, keyMatch ip port e = false) →
        save_history_list history ip port status date
          = history.tail ++ [⟨ip, port, status, date⟩]) := by
  constructor
  · unfold save_history_list lastSlice
    rw [List.length_drop]
    omega
  · intro h30 hnone
    simp only [save_history_list, lastSlice]
    have hself : history.filter (fun e => !(keyMatch ip port e)) = history := by
      rw [List.filter_eq_self]
      intro a ha
      simp [hnone a ha]
    rw [hself]
    have hlen : (history ++ [(⟨ip, port, status, date⟩ : Entry)]).length - 30 = 1 := by
      simp only [List.length_append, List.length_singleton]
      omega
    rw [hlen, List.drop_append_of_le_length (by omega), List.drop_one]

/-- A concrete 30-entry history with 30 distinct keys, for the C2 witness. -/
def hist30 : List Entry :=
  (List.range 30).map (fun i => ⟨Nat.repr i, "80", "ouvert", "d"⟩)

/-- Witness for C2: saving a 31st distinct-key entry into the concrete
30-entry history evicts exactly the oldest entry. -/
theorem save_history_capacity_witness :
    (save_history_list hist30 "8.8.8.8" "80" "ouvert" "d2").length ≤ 30
    ∧ save_history_list hist30 "8.8.8.8" "80" "ouvert" "d2"
        = hist30.tail ++ [⟨"8.8.8.8", "80", "ouvert", "d2"⟩] :=
  ⟨(save_history_capacity hist30 "8.8.8.8" "80" "ouvert" "d2").1,
   (save_history_capacity hist30 "8.8.8.8" "80" "ouvert" "d2").2
     (by decide) (by decide)⟩

/-! ## Python `int()` and `validate_port` (`src/main.py` lines 135-140) -/

/-- ASCII whitespace stripped by Python `int(str)` before parsing. -/
def isPySpace (c : Char) : Bool :=
  c = ' ' || c = '\t' || c = '\n' || c = '\x0b' || c = '\x0c' || c = '\x0d'

/-- Strip leading and trailing whitespace, as Python `int(str)` does. -/
def stripSpaces (l : List Char) : List Char :=
  ((l.dropWhile isPySpace).reverse.dropWhile isPySpace).reverse

/-- Numeric value of a decimal digit character. -/
def digitVal (c : Char) : Nat := c.toNat - 48

/-- Value of a list of decimal digit characters, most significant first. -/
def decVal (l : List Char) : Nat :=
  l.foldl (fun a c => 10 * a + digitVal c) 0

/-- After the first digit of a Python integer literal: a repetition of
digits, where a single underscore may stand between two digits
(no doubled, leading or trailing underscore). -/
def digitsTail : List Char → Bool
  | [] => true
  | c :: rest =>
    if c = '_' then
      match rest with
      | [] => false
      | c2 :: rest2 => c2.isDigit && digitsTail rest2
    else c.isDigit && digitsTail rest

/-- A nonempty digit sequence in Python `int()` literal syntax
(digits with optional single underscores between digits). -/
def digitsOk : List Char → Bool
  | [] => false
  | c :: rest => c.isDigit && digitsTail rest

/-- The sign factor of a Python integer literal (after whitespace strip). -/
def pyIntSign : List Char → Int
  | c :: _ => if c = '-' then -1 else 1
  | [] => 1

/-- The digit part of a Python integer literal: everything after an optional
single leading `+` or `-`. -/
def pyIntBody : List Char → List Char
  | c :: rest => if c = '+' || c = '-' then rest else c :: rest
  | [] => []

/-- Modelled from the Python builtin `int(str)` used by `validate_port` and
`check_port`: surrounding whitespace is stripped, an optional single `+` or
`-` sign precedes the digits, and single underscores may separate digits
(ASCII input; returns `none` where `int` raises `ValueError`). -/
def pyIntParse (s : String) : Option Int :=
  if digitsOk (pyIntBody (stripSpaces s.data)) then
    some (pyIntSign (stripSpaces s.data)
      * (decVal ((pyIntBody (stripSpaces s.data)).filter (fun c => c != '_')) : Int))
  else none

/-- The two user-input error categories of `validate_port`: the French
message for a non-numeric port and the one for a numeric port outside
1..65535. -/
inductive PortError
  | notANumber
  | outOfRange
deriving DecidableEq, Repr

/-- `validate_port` (`src/main.py` lines 135-140): `int(port)` failing gives
the not-a-number error, a value outside 1..65535 gives the out-of-range
error, otherwise no error. -/
def validate_port (port : String) : Option PortError :=
  match pyIntParse port with
  | none => some PortError.notANumber
  | some n => if 1 ≤ n ∧ n ≤ 65535 then none else some PortError.outOfRange

theorem digitsTail_cons (c : Char) (rest : List Char) :
    digitsTail (c :: rest)
      = if c = '_' then
          (match rest with
           | [] => false
           | c2 :: rest2 => c2.isDigit && digitsTail rest2)
        else c.isDigit && digitsTail rest := by
  rw [digitsTail.eq_def]

theorem digitsOk_cons (c : Char) (rest : List Char) :
    digitsOk (c :: rest) = (c.isDigit && digitsTail rest) := rfl

theorem digitsTail_of_digits (cs : List Char)
    (h : ∀ c ∈ cs, c.isDigit = true) : digitsTail cs = true := by
  induction cs with
  | nil => rfl
  | cons c rest ih =>
    have hc : c.isDigit = true := h c (by simp)
    have hne : ¬(c = '_') := by
      intro he
      rw [he] at hc
      exact absurd hc (by decide)
    rw [digitsTail_cons, if_neg hne, hc, Bool.true_and]
    exact ih (fun x hx => h x (by simp [hx]))

theorem isPySpace_of_digit (c : Char) (hc : c.isDigit = true) :
    isPySpace c = false := by
  have h1 : ¬(c = ' ') := fun he => by rw [he] at hc; exact absurd hc (by decide)
  have h2 : ¬(c = '\t') := fun he => by rw [he] at hc; exact absurd hc (by decide)
  have h3 : ¬(c = '\n') := fun he => by rw [he] at hc; exact absurd hc (by decide)
  have h4 : ¬(c = '\x0b') := fun he => by rw [he] at hc; exact absurd hc (by decide)
  have h5 : ¬(c = '\x0c') := fun he => by rw [he] at hc; exact absurd hc (by decide)
  have h6 : ¬(c = '\x0d') := fun he => by rw [he] at hc; exact absurd hc (by decide)
  simp [isPySpace, h1, h2, h3, h4, h5, h6]

theorem stripSpaces_of_digits (cs : List Char)
    (h : ∀ c ∈ cs, c.isDigit = true) : stripSpaces cs = cs := by
  have hns : ∀ c ∈ cs, isPySpace c = false :=
    fun c hc => isPySpace_of_digit c (h c hc)
  have hdw : ∀ (l : List Char), (∀ c ∈ l, isPySpace c = false) →
      l.dropWhile isPySpace = l := by
    intro l hl
    cases l with
    | nil => rfl
    | cons c rest => rw [List.dropWhile_cons, hl c (by simp), if_neg (by simp)]
  unfold stripSpaces
  rw [hdw cs hns, hdw cs.reverse (fun c hc => hns c (List.mem_reverse.mp hc)),
    List.reverse_reverse]

theorem pyIntParse_digits (s : String) (hne : s.data ≠ [])
    (hd : ∀ c ∈ s.data, c.isDigit = true) :
    pyIntParse s = some ((decVal s.data : Nat) : Int) := by
  obtain ⟨c, rest, hcs⟩ : ∃ c rest, s.data = c :: rest := by
    cases hcs : s.data with
    | nil => exact absurd hcs hne
    | cons c rest => exact ⟨c, rest, rfl⟩
  have hc : c.isDigit = true := hd c (by rw [hcs]; simp)
  have hplus : ¬(c = '+') := by
    intro he; rw [he] at hc; exact absurd hc (by decide)
  have hminus : ¬(c = '-') := by
    intro he; rw [he] at hc; exact absurd hc (by decide)
  have htail : digitsTail rest = true :=
    digitsTail_of_digits rest (fun x hx => hd x (by rw [hcs]; simp [hx]))
  have hfilt : (c :: rest).filter (fun x => x != '_') = c :: rest := by
    rw [List.filter_eq_self]
    intro a ha
    have hda : a.isDigit = true := hd a (by rw [hcs]; exact ha)
    have : ¬(a = '_') := by
      intro he; rw [he] at hda; exact absurd hda (by decide)
    simp [this]
  have hbody : pyIntBody (c :: rest) = c :: rest := by
    simp [pyIntBody, hplus, hminus]
  have hsign : pyIntSign (c :: rest) = 1 := by
    simp [pyIntSign, hminus]
  unfold pyIntParse
  rw [stripSpaces_of_digits s.data hd, hcs, hbody]
  rw [digitsOk_cons, hc, Bool.true_and, htail, if_pos rfl]
  rw [hsign, hfilt, one_mul]

/-- Claim C5: `validate_port` returns the not-a-number error exactly when the
string does not parse as a base-10 integer (in the `int()` literal sense the
code uses), returns the out-of-range error exactly when the string parses to
an integer outside 1..65535, returns no error on every nonempty plain digit
string whose value lies in 1..65535, and on the concrete inputs "0", "65536"
and "abc" returns an error. -/
theorem validate_port_spec :
    (∀ s, validate_port s = some PortError.notANumber ↔ pyIntParse s = none)
    ∧ (∀ s n, pyIntParse s = some n →
        (validate_port s = some PortError.outOfRange ↔ (n < 1 ∨ 65535 < n)))
    ∧ (∀ s, s.data ≠ [] → (∀ c ∈ s.data, c.isDigit = true) →
        1 ≤ decVal s.data → decVal s.data ≤ 65535 → validate_port s = none)
    ∧ validate_port "0" = some PortError.outOfRange
    ∧ validate_port "65536" = some PortError.outOfRange
    ∧ validate_port "abc" = some PortError.notANumber := by
  refine ⟨?_, ?_, ?_, by decide, by decide, by decide⟩
  · intro s
    cases hp : pyIntParse s with
    | none => simp [validate_port, hp]
    | some n =>
      simp only [validate_port, hp]
      constructor
      · intro h
        by_cases hr : 1 ≤ n ∧ n ≤ 65535
        · rw [if_pos hr] at h; exact absurd h (by simp)
        · rw [if_neg hr] at h; exact absurd h (by simp)
      · intro h; exact absurd h (by simp)
  · intro s n hp
    simp only [validate_port, hp]
    by_cases hr : 1 ≤ n ∧ n ≤ 65535
    · rw [if_pos hr]
      constructor
      · intro h; exact absurd h (by simp)
      · intro h; omega
    · rw [if_neg hr]
      constructor
      · intro _; omega
      · intro _; rfl
  · intro s hne hd h1 h2
    simp only [validate_port, pyIntParse_digits s hne hd]
    have hin : 1 ≤ ((decVal s.data : Nat) : Int)
        ∧ ((decVal s.data : Nat) : Int) ≤ 65535 := by
      constructor
      · exact_mod_cast h1
      · exact_mod_cast h2
    rw [if_pos hin]

/-- Witness for C5: the iff parts applied at "80" (parses to 80, in range)
and the digit-string part applied at "80". -/
theorem validate_port_spec_witness :
    (validate_port "80" = some PortError.notANumber ↔ pyIntParse "80" = none)
    ∧ validate_port "80" = none :=
  ⟨validate_port_spec.1 "80",
   validate_port_spec.2.2.1 "80" (by decide) (by decide) (by decide) (by decide)⟩

/-- Claim C10: `validate_port` accepts strings that are not canonical decimal
numerals — surrounding whitespace, a leading plus sign, underscores between
digits — because `int()` accepts them; each parses to 80 and validates. -/
theorem validate_port_python_syntax :
    pyIntParse " 80 " = some 80 ∧ validate_port " 80 " = none
    ∧ pyIntParse "+80" = some 80 ∧ validate_port "+80" = none
    ∧ pyIntParse "8_0" = some 80 ∧ validate_port "8_0" = none := by
  refine ⟨by decide, by decide, by decide, by decide, by decide, by decide⟩

/-! ## The `ipaddress` module model and `validate_ip`
(`src/main.py` lines 126-133)

`validate_ip` calls `ipaddress.ip_address` and the `is_private`,
`is_loopback`, `is_link_local` properties.  These are modelled from the
Python 3.11 standard library: the IPv4 dotted-quad parser (four decimal
octets, each at most 3 digits, no leading zeros, value at most 255), the
IPv6 parser (colon-separated 1-4 hex-digit groups, at most one `::`, an
optional embedded dotted-quad tail, an optional nonempty `%scope` suffix),
and the classification networks of `ipaddress._IPv4Constants` and
`ipaddress._IPv6Constants`. -/

/-- Python `str.split(sep)` for a one-character separator. -/
def splitOnChar (sep : Char) : List Char → List (List Char)
  | [] => [[]]
  | c :: rest =>
    let r := splitOnChar sep rest
    if c = sep then [] :: r
    else
      match r with
      | [] => [[c]]
      | h :: t => (c :: h) :: t

/-- `ipaddress._parse_octet`: a nonempty all-digit string of at most 3
characters, no leading zero, value at most 255. -/
def parse_octet (cs : List Char) : Option Nat :=
  if cs.isEmpty then none
  else if !(cs.all Char.isDigit) then none
  else if 3 < cs.length then none
  else if cs.head? = some '0' ∧ 1 < cs.length then none
  else if 255 < decVal cs then none
  else some (decVal cs)

/-- `IPv4Address._ip_int_from_string`: exactly four octets split on `.`. -/
def parse_ipv4_chars (cs : List Char) : Option Nat :=
  match (splitOnChar '.' cs).mapM parse_octet with
  | some [a, b, c, d] => some (((a * 256 + b) * 256 + c) * 256 + d)
  | _ => none

/-- The hexadecimal digits accepted in an IPv6 hextet. -/
def isHexDigitChar (c : Char) : Bool :=
  c.isDigit || ('a' ≤ c ∧ c ≤ 'f') || ('A' ≤ c ∧ c ≤ 'F')

/-- Numeric value of a hexadecimal digit character. -/
def hexDigitVal (c : Char) : Nat :=
  if c.isDigit then c.toNat - 48
  else if 'a' ≤ c ∧ c ≤ 'f' then c.toNat - 87
  else c.toNat - 55

/-- Value of a list of hexadecimal digit characters, most significant
first. -/
def hexVal (cs : List Char) : Nat := cs.foldl (fun a c => 16 * a + hexDigitVal c) 0

/-- `IPv6Address._parse_hextet`: 1 to 4 hexadecimal digits. -/
def parse_hextet (cs : List Char) : Option Nat :=
  if cs.isEmpty then none
  else if 4 < cs.length then none
  else if !(cs.all isHexDigitChar) then none
  else some (hexVal cs)

/-- Python `'%x' % n`: lowercase hexadecimal digits, no padding. -/
def hexChars (n : Nat) : List Char := Nat.toDigits 16 n

/-- The embedded dotted-quad step of `IPv6Address._ip_int_from_string`:
when the last colon-separated part contains a `.` it is parsed as an IPv4
address and replaced by its two hextets. -/
def partsAfterV4 (parts : List (List Char)) : Option (List (List Char)) :=
  match parts.getLast? with
  | none => none
  | some last =>
    if last.contains '.' then
      match parse_ipv4_chars last with
      | some v4 => some (parts.dropLast ++ [hexChars (v4 / 65536), hexChars (v4 % 65536)])
      | none => none
    else some parts

/-- Indices `1 .. length-2` holding an empty part: the candidate positions
of the `::` gap. -/
def innerEmptyIndices (parts : List (List Char)) : List Nat :=
  (List.range parts.length).filter
    (fun i => decide (1 ≤ i) && decide (i + 1 < parts.length)
      && (parts.getD i ['x']).isEmpty)

/-- Fold a list of 16-bit hextet values onto an accumulator, most
significant first. -/
def hextetsVal (init : Nat) (hs : List Nat) : Nat :=
  hs.foldl (fun a h => a * 65536 + h) init

/-- `IPv6Address._ip_int_from_string` on the address text (scope already
removed): at least 3 and at most 9 colon-separated parts, at most one `::`
gap, an empty first or last part only as part of a leading or trailing
`::`, eight hextets in total with the gap standing for the missing
zero hextets. -/
def parse_ipv6_chars (cs : List Char) : Option Nat :=
  if cs.isEmpty then none
  else
    let parts0 := splitOnChar ':' cs
    if parts0.length < 3 then none
    else
      match partsAfterV4 parts0 with
      | none => none
      | some parts =>
        if 9 < parts.length then none
        else
          match innerEmptyIndices parts with
          | [] =>
            if parts.length ≠ 8 then none
            else if (parts.headD ['x']).isEmpty then none
            else if (parts.getLastD ['x']).isEmpty then none
            else
              match parts.mapM parse_hextet with
              | some hs => some (hextetsVal 0 hs)
              | none => none
          | [skip] =>
            let hi0 := skip
            let lo0 := parts.length - skip - 1
            let headEmpty := (parts.headD ['x']).isEmpty
            let lastEmpty := (parts.getLastD ['x']).isEmpty
            if headEmpty ∧ hi0 ≠ 1 then none
            else if lastEmpty ∧ lo0 ≠ 1 then none
            else
              let hi := if headEmpty then 0 else hi0
              let lo := if lastEmpty then 0 else lo0
              if 8 < hi + lo + 1 then none
              else
                match (parts.take hi).mapM parse_hextet,
                      (parts.drop (parts.length - lo)).mapM parse_hextet with
                | some hiVals, some loVals =>
                  some (hextetsVal (hextetsVal 0 hiVals * 65536 ^ (8 - (hi + lo))) loVals)
                | _, _ => none
          | _ => none

/-- `IPv6Address` construction from a string: an optional single `%scope`
suffix with a nonempty scope, the rest parsed as the address. -/
def parse_ipv6 (s : String) : Option Nat :=
  match splitOnChar '%' s.data with
  | [addr] => parse_ipv6_chars addr
  | [addr, scope] => if scope.isEmpty then none else parse_ipv6_chars addr
  | _ => none

/-- `IPv4Address` construction from a string. -/
def parse_ipv4 (s : String) : Option Nat := parse_ipv4_chars s.data

/-- The result of `ipaddress.ip_address`: an IPv4 or IPv6 address, carried
as its numeric value. -/
inductive IpAddr
  | v4 (n : Nat)
  | v6 (n : Nat)
deriving DecidableEq, Repr

/-- `ipaddress.ip_address(str)`: try IPv4 first, then IPv6, else a
`ValueError` (`none`). -/
def ip_address (s : String) : Option IpAddr :=
  match parse_ipv4 s with
  | some n => some (IpAddr.v4 n)
  | none =>
    match parse_ipv6 s with
    | some n => some (IpAddr.v6 n)
    | none => none

/-- Membership of an address value in a CIDR network: the top `plen` bits
agree with the network address. -/
def inNet (width n netVal plen : Nat) : Bool :=
  n / 2 ^ (width - plen) == netVal / 2 ^ (width - plen)

/-- The value of the IPv4 dotted quad `a.b.c.d`. -/
def ipv4Net (a b c d : Nat) : Nat := ((a * 256 + b) * 256 + c) * 256 + d

/-- `IPv4Address.is_private`: the `_IPv4Constants._private_networks` list of
Python 3.11. -/
def is_private_v4 (n : Nat) : Bool :=
  inNet 32 n (ipv4Net 0 0 0 0) 8 || inNet 32 n (ipv4Net 10 0 0 0) 8 ||
  inNet 32 n (ipv4Net 127 0 0 0) 8 || inNet 32 n (ipv4Net 169 254 0 0) 16 ||
  inNet 32 n (ipv4Net 172 16 0 0) 12 || inNet 32 n (ipv4Net 192 0 0 0) 29 ||
  inNet 32 n (ipv4Net 192 0 0 170) 31 || inNet 32 n (ipv4Net 192 0 2 0) 24 ||
  inNet 32 n (ipv4Net 192 168 0 0) 16 || inNet 32 n (ipv4Net 198 18 0 0) 15 ||
  inNet 32 n (ipv4Net 198 51 100 0) 24 || inNet 32 n (ipv4Net 203 0 113 0) 24 ||
  inNet 32 n (ipv4Net 240 0 0 0) 4 || inNet 32 n (ipv4Net 255 255 255 255) 32

/-- `IPv4Address.is_loopback`: 127.0.0.0/8. -/
def is_loopback_v4 (n : Nat) : Bool := inNet 32 n (ipv4Net 127 0 0 0) 8

/-- `IPv4Address.is_link_local`: 169.254.0.0/16. -/
def is_link_local_v4 (n : Nat) : Bool := inNet 32 n (ipv4Net 169 254 0 0) 16

/-- `IPv4Address.is_multicast`: 224.0.0.0/4. -/
def is_multicast_v4 (n : Nat) : Bool := inNet 32 n (ipv4Net 224 0 0 0) 4

/-- `IPv6Address.is_private`: the `_IPv6Constants._private_networks` list of
Python 3.11 (`::1/128`, `::/128`, `::ffff:0:0/96`, `100::/64`, `2001::/23`,
`2001:2::/48`, `2001:db8::/32`, `2001:10::/28`, `fc00::/7`, `fe80::/10`). -/
def is_private_v6 (n : Nat) : Bool :=
  inNet 128 n 1 128 || inNet 128 n 0 128 || inNet 128 n (65535 * 2 ^ 32) 96 ||
  inNet 128 n (256 * 2 ^ 112) 64 || inNet 128 n (8193 * 2 ^ 112) 23 ||
  inNet 128 n (8193 * 2 ^ 112 + 2 * 2 ^ 96) 48 ||
  inNet 128 n (8193 * 2 ^ 112 + 3512 * 2 ^ 96) 32 ||
  inNet 128 n (8193 * 2 ^ 112 + 16 * 2 ^ 96) 28 ||
  inNet 128 n (64512 * 2 ^ 112) 7 || inNet 128 n (65152 * 2 ^ 112) 10

/-- `IPv6Address.is_loopback`: `::1`. -/
def is_loopback_v6 (n : Nat) : Bool := n == 1

/-- `IPv6Address.is_link_local`: `fe80::/10`. -/
def is_link_local_v6 (n : Nat) : Bool := inNet 128 n (65152 * 2 ^ 112) 10

/-- Dispatch of `is_private` on the address family. -/
def is_private : IpAddr → Bool
  | IpAddr.v4 n => is_private_v4 n
  | IpAddr.v6 n => is_private_v6 n

/-- Dispatch of `is_loopback` on the address family. -/
def is_loopback : IpAddr → Bool
  | IpAddr.v4 n => is_loopback_v4 n
  | IpAddr.v6 n => is_loopback_v6 n

/-- Dispatch of `is_link_local` on the address family. -/
def is_link_local : IpAddr → Bool
  | IpAddr.v4 n => is_link_local_v4 n
  | IpAddr.v6 n => is_link_local_v6 n

/-- The two user-input error categories of `validate_ip`: the French message
for an unparseable address and the one for a disallowed address. -/
inductive IpError
  | invalidFormat
  | addressNotAllowed
deriving DecidableEq, Repr

/-- `validate_ip` (`src/main.py` lines 126-133): parse failure gives the
invalid-format error; a private, loopback or link-local address gives the
not-allowed error; otherwise no error. -/
def validate_ip (ip : String) : Option IpError :=
  match ip_address ip with
  | none => some IpError.invalidFormat
  | some a =>
    if is_private a || is_loopback a || is_link_local a then
      some IpError.addressNotAllowed
    else none

theorem validate_ip_notAllowed (s : String) (a : IpAddr)
    (ha : ip_address s = some a)
    (h : (is_private a || is_loopback a || is_link_local a) = true) :
    validate_ip s = some IpError.addressNotAllowed := by
  simp only [validate_ip, ha]
  rw [if_pos h]

/-- Claim C6: `validate_ip` returns the invalid-format error exactly when the
string fails to parse as an IPv4 or IPv6 literal, returns the not-allowed
error whenever the parsed address is classified private, loopback or
link-local, and in particular returns the not-allowed error for every
address in 10.0.0.0/8, 127.0.0.0/8, 169.254.0.0/16 and their IPv6
analogues (`::1`, `fe80::/10`, `fc00::/7`). -/
theorem validate_ip_spec :
    (∀ s, validate_ip s = some IpError.invalidFormat ↔ ip_address s = none)
    ∧ (∀ s a, ip_address s = some a →
        (is_private a || is_loopback a || is_link_local a) = true →
        validate_ip s = some IpError.addressNotAllowed)
    ∧ (∀ s n, ip_address s = some (IpAddr.v4 n) →
        (inNet 32 n (ipv4Net 10 0 0 0) 8 = true
          ∨ inNet 32 n (ipv4Net 127 0 0 0) 8 = true
          ∨ inNet 32 n (ipv4Net 169 254 0 0) 16 = true) →
        validate_ip s = some IpError.addressNotAllowed)
    ∧ (∀ s n, ip_address s = some (IpAddr.v6 n) →
        (is_loopback_v6 n = true ∨ is_link_local_v6 n = true
          ∨ inNet 128 n (64512 * 2 ^ 112) 7 = true) →
        validate_ip s = some IpError.addressNotAllowed) := by
  refine ⟨?_, ?_, ?_, ?_⟩
  · intro s
    cases ha : ip_address s with
    | none => simp [validate_ip, ha]
    | some a =>
      simp only [validate_ip, ha]
      split
      · simp
      · simp
  · intro s a ha h
    exact validate_ip_notAllowed s a ha h
  · intro s n ha h
    apply validate_ip_notAllowed s _ ha
    rcases h with h | h | h
    · simp [is_private, is_private_v4, h]
    · simp [is_loopback, is_loopback_v4, h]
    · simp [is_link_local, is_link_local_v4, h]
  · intro s n ha h
    apply validate_ip_notAllowed s _ ha
    rcases h with h | h | h
    · simp [is_loopback, h]
    · simp [is_link_local, h]
    · simp only [is_private, is_private_v6, h]
      simp

/-- Witness for C6 on concrete private, loopback, link-local and
unique-local addresses. -/
theorem validate_ip_spec_witness :
    validate_ip "10.0.0.1" = some IpError.addressNotAllowed
    ∧ validate_ip "127.0.0.1" = some IpError.addressNotAllowed
    ∧ validate_ip "169.254.7.7" = some IpError.addressNotAllowed
    ∧ validate_ip "fc00::1" = some IpError.addressNotAllowed :=
  ⟨validate_ip_spec.2.2.1 "10.0.0.1" (ipv4Net 10 0 0 1) (by decide)
     (Or.inl (by decide)),
   validate_ip_spec.2.2.1 "127.0.0.1" (ipv4Net 127 0 0 1) (by decide)
     (Or.inr (Or.inl (by decide))),
   validate_ip_spec.2.2.1 "169.254.7.7" (ipv4Net 169 254 7 7) (by decide)
     (Or.inr (Or.inr (by decide))),
   validate_ip_spec.2.2.2 "fc00::1" (64512 * 2 ^ 112 + 1) (by decide)
     (Or.inr (Or.inr (by decide)))⟩

/-- Counterexample to claim C7: the multicast address 224.0.0.1 is not
globally routable, yet `validate_ip` accepts it, because the code only
rejects the private, loopback and link-local classes. -/
theorem validate_ip_nonglobal_cex :
    ip_address "224.0.0.1" = some (IpAddr.v4 (ipv4Net 224 0 0 1))
    ∧ is_multicast_v4 (ipv4Net 224 0 0 1) = true
    ∧ validate_ip "224.0.0.1" = none :=
  ⟨by decide, by decide, by decide⟩

/-- Claim C7 as amended: a string that parses passes `validate_ip` exactly
when the parsed address is classified neither private nor loopback nor
link-local; other non-global addresses (for example multicast ones) do
pass. -/
theorem validate_ip_passes_iff (s : String) (a : IpAddr)
    (h : ip_address s = some a) :
    validate_ip s = none
      ↔ (is_private a || is_loopback a || is_link_local a) = false := by
  simp only [validate_ip, h]
  by_cases hc : (is_private a || is_loopback a || is_link_local a) = true
  · rw [if_pos hc, hc]
    simp
  · rw [if_neg hc]
    simp only [Bool.not_eq_true] at hc
    simp [hc]

/-- Witness for the amended C7 at the public address 8.8.8.8. -/
theorem validate_ip_passes_iff_witness : validate_ip "8.8.8.8" = none :=
  (validate_ip_passes_iff "8.8.8.8" (IpAddr.v4 (ipv4Net 8 8 8 8))
    (by decide)).mpr (by decide)

/-! ## Persistence with caches, the probe, and `check_port`
(`src/main.py` lines 16-55 and 106-124)

`load_settings` and `load_history` are decorated with
`functools.lru_cache(maxsize=1)`; the cache slots become explicit `Option`
fields of the process state.  `save_settings` calls
`load_settings.cache_clear()`; `save_history` clears no cache.  A raised
exception (`json.load` on a corrupt settings file) is an `Except.error` and
is not cached, matching `lru_cache`, which caches only returned values. -/

/-- The settings record `{"ip": ..., "port": ...}` of
`scanner_settings.json`. -/
structure Settings where
  ip : String
  port : String
deriving DecidableEq, Repr

/-- The on-disk state of one JSON record file: missing, unparseable, or
holding a parsed value. -/
inductive FileState (α : Type)
  | absent
  | corrupt
  | stored (v : α)
deriving DecidableEq, Repr

/-- Process state: the two record files and the two one-slot caches. -/
structure Store where
  settingsFile : FileState Settings
  historyFile : FileState (List Entry)
  settingsCache : Option Settings
  historyCache : Option (List Entry)
deriving DecidableEq, Repr

/-- `load_settings` (`src/main.py` lines 16-21): serve the cached value if
present; otherwise read the file — a missing file yields the zero value,
a corrupt file raises `json.JSONDecodeError` (nothing is caught here, and
`lru_cache` does not cache a raised exception). -/
def load_settings (s : Store) : Except String (Settings × Store) :=
  match s.settingsCache with
  | some v => Except.ok (v, s)
  | none =>
    match s.settingsFile with
    | FileState.absent =>
      Except.ok (⟨"", ""⟩,
        ⟨s.settingsFile, s.historyFile, some ⟨"", ""⟩, s.historyCache⟩)
    | FileState.corrupt => Except.error "JSONDecodeError"
    | FileState.stored v =>
      Except.ok (v, ⟨s.settingsFile, s.historyFile, some v, s.historyCache⟩)

/-- `save_settings` (`src/main.py` lines 23-26): overwrite the settings file
and clear the settings cache. -/
def save_settings (ip port : String) (s : Store) : Store :=
  ⟨FileState.stored ⟨ip, port⟩, s.historyFile, none, s.historyCache⟩

/-- `load_history` (`src/main.py` lines 42-48): serve the cached value if
present; otherwise read the file, treating a missing or corrupt file as the
empty list (`FileNotFoundError` and `JSONDecodeError` are caught). -/
def load_history (s : Store) : List Entry × Store :=
  match s.historyCache with
  | some v => (v, s)
  | none =>
    match s.historyFile with
    | FileState.stored v =>
      (v, ⟨s.settingsFile, s.historyFile, s.settingsCache, some v⟩)
    | FileState.absent =>
      ([], ⟨s.settingsFile, s.historyFile, s.settingsCache, some []⟩)
    | FileState.corrupt =>
      ([], ⟨s.settingsFile, s.historyFile, s.settingsCache, some []⟩)

/-- `save_history` (`src/main.py` lines 28-40): read the history through the
cached loader, apply the upsert-and-cap rule, rewrite the file.  No cache
is cleared — the source has no `load_history.cache_clear()` call. -/
def save_history (ip port status date : String) (s : Store) : Store :=
  let r := load_history s
  ⟨r.2.settingsFile,
   FileState.stored (save_history_list r.1 ip port status date),
   r.2.settingsCache, r.2.historyCache⟩

/-- The outcome of the single `socket.create_connection` attempt.  Every
transport-level failure Python can raise there (`socket.timeout`,
`ConnectionRefusedError`, any other `OSError` subclass) is one of the
non-`connected` constructors. -/
inductive ConnectOutcome
  | connected
  | timedOut
  | refused
  | osError
deriving DecidableEq, Repr

/-- `is_port_open` (`src/main.py` lines 50-55): true exactly when the
connection attempt (abstracted as the `net` oracle) completes; every
failure constructor is absorbed into `false` by the
`except (socket.timeout, ConnectionRefusedError, OSError)` clause. -/
def is_port_open (net : String → Int → Nat → ConnectOutcome)
    (ip : String) (port : Int) (timeout : Nat) : Bool :=
  match net ip port timeout with
  | ConnectOutcome.connected => true
  | ConnectOutcome.timedOut => false
  | ConnectOutcome.refused => false
  | ConnectOutcome.osError => false

/-- What `PortScanner.check_port` produces: the two field error texts, whether
a probe was attempted, the result line, and the process state after any
persistence. -/
structure CheckResult where
  ipError : Option IpError
  portError : Option PortError
  probed : Bool
  resultText : String
  store : Store
deriving Repr

/-- `PortScanner.check_port` (`src/main.py` lines 106-124): validate both
fields; only when neither validator reports an error, probe once with
timeout 1, then save settings and history; otherwise leave the state
untouched. -/
def check_port (net : String → Int → Nat → ConnectOutcome)
    (ip port date : String) (s : Store) : CheckResult :=
  let ipErr := validate_ip ip
  let portErr := validate_port port
  if ipErr.isNone && portErr.isNone then
    let status := is_port_open net ip ((pyIntParse port).getD 0) 1
    let statusText := if status then "ouvert" else "fermé"
    let s2 := save_history ip port statusText date (save_settings ip port s)
    ⟨ipErr, portErr, true,
      "Le port " ++ port ++ " sur " ++ ip ++ " est " ++ statusText ++ ".", s2⟩
  else
    ⟨ipErr, portErr, false, "Veuillez corriger les erreurs dans les champs.", s⟩

/-- Claim C3 fails on the code for the history record: starting from a fresh
process with no files, `save_history` writes the entry to the file, but the
very next `load_history` still returns the stale cached `[]` (the cache that
`save_history` itself populated through `load_history` and never cleared),
and a second `save_history` therefore writes a file that has lost the first
entry.  The settings pair is coherent: `load_settings` directly after any
`save_settings` returns the just-written record. -/
theorem history_cache_incoherent :
    (save_history "1.2.3.4" "80" "ouvert" "d1"
        ⟨FileState.absent, FileState.absent, none, none⟩).historyFile
      = FileState.stored [⟨"1.2.3.4", "80", "ouvert", "d1"⟩]
    ∧ (load_history (save_history "1.2.3.4" "80" "ouvert" "d1"
        ⟨FileState.absent, FileState.absent, none, none⟩)).1
      = []
    ∧ (save_history "5.6.7.8" "443" "fermé" "d2"
        (save_history "1.2.3.4" "80" "ouvert" "d1"
          ⟨FileState.absent, FileState.absent, none, none⟩)).historyFile
      = FileState.stored [⟨"5.6.7.8", "443", "fermé", "d2"⟩]
    ∧ ∀ (s : Store) (ip port : String),
        load_settings (save_settings ip port s)
          = Except.ok (⟨ip, port⟩,
              ⟨FileState.stored ⟨ip, port⟩, s.historyFile, some ⟨ip, port⟩,
                s.historyCache⟩) :=
  ⟨by decide, by decide, by decide, fun s ip port => rfl⟩

/-- Counterexample to claim C4: with an existing but unparseable settings
file, `load_settings` raises `json.JSONDecodeError` instead of returning the
zero value. -/
theorem load_settings_corrupt_cex :
    load_settings ⟨FileState.corrupt, FileState.absent, none, none⟩
      = Except.error "JSONDecodeError" := rfl

/-- Claim C4 as amended: with an empty cache, `load_settings` returns the
stored settings when the file parses, the zero value when the file is
absent, and raises the JSON parse error when the file is corrupt; a load
directly after `save_settings` returns the just-saved record. -/
theorem load_settings_amended (s : Store) (hc : s.settingsCache = none) :
    (s.settingsFile = FileState.absent →
      load_settings s = Except.ok (⟨"", ""⟩,
        ⟨s.settingsFile, s.historyFile, some ⟨"", ""⟩, s.historyCache⟩))
    ∧ (∀ v, s.settingsFile = FileState.stored v →
      load_settings s = Except.ok (v,
        ⟨s.settingsFile, s.historyFile, some v, s.historyCache⟩))
    ∧ (s.settingsFile = FileState.corrupt →
      load_settings s = Except.error "JSONDecodeError")
    ∧ (∀ ip port, load_settings (save_settings ip port s)
        = Except.ok (⟨ip, port⟩,
            ⟨FileState.stored ⟨ip, port⟩, s.historyFile, some ⟨ip, port⟩,
              s.historyCache⟩)) := by
  refine ⟨?_, ?_, ?_, fun ip port => rfl⟩
  · intro hf
    simp [load_settings, hc, hf]
  · intro v hf
    simp [load_settings, hc, hf]
  · intro hf
    simp [load_settings, hc, hf]

/-- Witness for the amended C4 on a fresh store with no settings file. -/
theorem load_settings_amended_witness :
    load_settings ⟨FileState.absent, FileState.absent, none, none⟩
      = Except.ok (⟨"", ""⟩,
          ⟨FileState.absent, FileState.absent, some ⟨"", ""⟩, none⟩) :=
  (load_settings_amended ⟨FileState.absent, FileState.absent, none, none⟩
    rfl).1 rfl

/-- Claim C9: the probe returns `Open` (`true`) exactly when the single
connection attempt completes, and `Closed` (`false`) exactly when it fails
in any way — timeout, refusal, or any other `OSError`; the function is
total with no third outcome. -/
theorem is_port_open_spec (net : String → Int → Nat → ConnectOutcome)
    (ip : String) (port : Int) (timeout : Nat) :
    (is_port_open net ip port timeout = true
      ↔ net ip port timeout = ConnectOutcome.connected)
    ∧ (is_port_open net ip port timeout = false
      ↔ net ip port timeout ≠ ConnectOutcome.connected) := by
  cases h : net ip port timeout <;> simp [is_port_open, h]

/-- Claim C8: when either validator reports an error, `check_port` performs
no probe and leaves the persisted state untouched. -/
theorem check_port_invalid_no_write (net : String → Int → Nat → ConnectOutcome)
    (ip port date : String) (s : Store)
    (h : validate_ip ip ≠ none ∨ validate_port port ≠ none) :
    (check_port net ip port date s).probed = false
    ∧ (check_port net ip port date s).store = s := by
  have hcond : ((validate_ip ip).isNone && (validate_port port).isNone) = false := by
    rcases h with h | h
    · cases hv : validate_ip ip
      · exact absurd hv h
      · simp [hv]
    · cases hv : validate_port port
      · exact absurd hv h
      · simp [hv]
  simp [check_port, hcond]

/-- Witness for C8 at the private address scenario of the spec:
input `("192.168.1.1", "80")` probes nothing and writes nothing. -/
theorem check_port_invalid_no_write_witness :
    (check_port (fun _ _ _ => ConnectOutcome.connected) "192.168.1.1" "80" "d"
        ⟨FileState.absent, FileState.absent, none, none⟩).probed = false
    ∧ (check_port (fun _ _ _ => ConnectOutcome.connected) "192.168.1.1" "80" "d"
        ⟨FileState.absent, FileState.absent, none, none⟩).store
      = ⟨FileState.absent, FileState.absent, none, none⟩ :=
  check_port_invalid_no_write (fun _ _ _ => ConnectOutcome.connected)
    "192.168.1.1" "80" "d" ⟨FileState.absent, FileState.absent, none, none⟩
    (Or.inl (by decide))

end FletSocket
